import Mathlib

/-!
Verification of the `oze-canopen-viewer` driver loop, command encoders and
statistics engine, shallowly embedded from `src/driver.rs` and
`src/bus_stats.rs`.

Conventions of the embedding:
* Rust machine integers (`u8`, `u16`, `u32`, `u64`, `usize`) are modelled as
  `Nat`, with explicit `% 2^w` / masking written exactly where the source
  performs a conversion or a masking operation.
* `f64` values are modelled as exact rationals `ℚ` (every `f64` value is a
  dyadic rational; rounding is not modelled).  `tokio::time::Instant` is
  modelled as a rational number of seconds; `Instant::duration_since`
  saturates at zero, modelled by `durationSince`.
* Channels and awaited events are modelled by explicit per-iteration inputs
  (`IterInput`): which `tokio::select!` branch won, whether the control
  watch channel reported a change, and the info snapshot read from the
  interface lock.
* Fallible encoders return `Option TxPacket`; `none` means no frame is
  produced and the transmit operation is never invoked.
-/

namespace OzeCanopen

/-- Modelled from the spec: `message_cached.rs` is not among the provided
sources; per the spec a `CachedMessage` is the raw frame (11-bit identifier,
0–8 byte payload) plus the sequence index assigned at ingestion.  Only the
presence of the stored fields matters to the claims. -/
structure RawFrame where
  cob_id : Nat
  data : List Nat
deriving DecidableEq, Repr

/-- Modelled from the spec: `MessageCached::new(index, frame)` stores the
ingestion sequence index together with the received frame. -/
structure MessageCached where
  index : Nat
  raw : RawFrame
deriving DecidableEq, Repr

/-- `MessageCached::new` from the spec: pairs the sequence index with the frame. -/
def MessageCached.new (index : Nat) (raw : RawFrame) : MessageCached :=
  { index := index, raw := raw }

/-- Modelled from the spec (external `oze_canopen` crate): the periodically
refreshed port-info snapshot (socket-open flags).  Its contents are opaque to
the driver, which only copies it into the published state. -/
structure CanOpenInfo where
  rx_open : Bool := false
  tx_open : Bool := false
deriving DecidableEq, Repr

/-- Modelled from the spec (external `oze_canopen` crate): connection
descriptor — interface name and optional bit rate. -/
structure Connection where
  can_name : String := ""
  bitrate : Option Nat := none
deriving DecidableEq, Repr

/-- `ControlCommand` from `driver.rs`: `Stop`, `Kill`, `Process`. -/
inductive ControlCommand where
  | Stop
  | Kill
  | Process
deriving DecidableEq, Repr

/-- Modelled from the spec (external `oze_canopen` crate): the NMT command
specifiers used by the driver. -/
inductive NmtCommandSpecifier where
  | StartRemoteNode
  | StopRemoteNode
  | EnterPreOperational
  | ResetNode
  | ResetCommunication
deriving DecidableEq, Repr

/-- `WriteCommand` from `driver.rs` (lines 21–34), embedded with exactly the
variants the source enum declares: `SendSync`, `SendNmt`, `SendRaw`,
`SendPdo`, `SendSdoDownload`, `ConfigureTpdo1Statusword`.  (The source enum
declares no EMCY variant.) -/
inductive WriteCommand where
  | SendSync
  | SendNmt (node_id : Nat) (command : NmtCommandSpecifier)
  | SendRaw (cob_id : Nat) (data : List Nat)
  | SendPdo (cob_id : Nat) (data : List Nat)
  | SendSdoDownload (node_id : Nat) (index : Nat) (subindex : Nat) (data : List Nat)
  | ConfigureTpdo1Statusword (node_id : Nat)
deriving DecidableEq, Repr

/-- `State` from `driver.rs`: the published driver state.  `data` is the
bounded message log (a `VecDeque`, front = oldest, modelled as a `List` with
head = oldest). -/
structure State where
  can_name : String := ""
  bitrate : Option Nat := none
  data : List MessageCached := []
  info : CanOpenInfo := {}
  exit_signal : Bool := false
deriving DecidableEq, Repr

/-- `Control` from `driver.rs`: command plus connection descriptor. -/
structure Control where
  command : ControlCommand
  connection : Connection := {}
deriving DecidableEq, Repr

/-- `TxPacket` from the external transmitter interface: 11-bit COB-ID
(`u16` in the source) and payload bytes. -/
structure TxPacket where
  cob_id : Nat
  data : List Nat
deriving DecidableEq, Repr

/-- The mutable driver fields relevant to the loop, from `struct Driver` in
`driver.rs`: the state being built, the last observed control value, the next
sequence index, and the lock-guarded live connection of the interface
(written on control-change edges). -/
structure Driver where
  state : State := {}
  control : Control
  index : Nat := 0
  coConnection : Connection := {}
deriving DecidableEq, Repr

/-- `MAX_MESSAGES_IN_STATE` from `driver.rs` line 65. -/
def MAX_MESSAGES_IN_STATE : Nat := 512

/-- The eviction loop from `Driver::process` (`driver.rs` lines 140–142):
`while self.state.data.len() > MAX_MESSAGES_IN_STATE { self.state.data.pop_front(); }`.
Pops the oldest entry while the length strictly exceeds the cap. -/
def evictExcess : List MessageCached → List MessageCached
  | [] => []
  | x :: xs => if xs.length + 1 > MAX_MESSAGES_IN_STATE then evictExcess xs else x :: xs

/-- Lines 140–143 of `driver.rs`: run the eviction loop, then
`push_back` the new message. -/
def pushBounded (l : List MessageCached) (m : MessageCached) : List MessageCached :=
  evictExcess l ++ [m]

/-- Which branch of the `tokio::select!` in `Driver::process` won the race:
a received frame (`Ok`), a receive error (`Err`), the 100 ms tick, the
ctrl-c shutdown signal, or a pending write command. -/
inductive SelectEvent where
  | frame (f : RawFrame)
  | frameErr
  | tick
  | ctrlC
  | write (cmd : WriteCommand)
deriving DecidableEq, Repr

/-- The per-iteration environment of `Driver::process`: the select outcome,
the control watch channel content (`some c` iff `has_changed()` returned
true, in which case `borrow_and_update()` yields `c`), and the info snapshot
read from `co.info`. -/
structure IterInput where
  event : SelectEvent
  ctrl : Option Control := none
  info : CanOpenInfo := {}
deriving DecidableEq, Repr

/-- `Driver::process` from `driver.rs` lines 92–144, embedded as a pure step
function on the driver fields it mutates.  The ctrl-c branch sets the
command to `Kill` and returns early (before the control update, info copy
and ingestion).  Otherwise: adopt a changed control value (also writing the
connection into the interface lock), copy the info snapshot into the state,
return without ingesting when the active command is `Stop` or `Kill`, and
otherwise ingest a successfully received frame by wrapping it with the next
sequence index and pushing it into the bounded log. -/
def Driver.process (d : Driver) (inp : IterInput) : Driver :=
  match inp.event with
  | .ctrlC => { d with control := { d.control with command := .Kill } }
  | e =>
    let rcv : Option (Option RawFrame) :=
      match e with
      | .frame f => some (some f)
      | .frameErr => some none
      | _ => none
    let d1 :=
      match inp.ctrl with
      | some c => { d with control := c, coConnection := c.connection }
      | none => d
    let d2 := { d1 with state := { d1.state with info := inp.info } }
    match d2.control.command with
    | .Stop => d2
    | .Kill => d2
    | .Process =>
      match rcv with
      | some (some f) =>
        { d2 with
          state := { d2.state with
                     data := pushBounded d2.state.data (MessageCached.new d2.index f) },
          index := d2.index + 1 }
      | _ => d2

/-- `Driver::run` from `driver.rs` lines 267–281, driven by a finite list of
per-iteration inputs; returns the list of published states, in order.  Each
iteration: `process`; if the command is `Kill`, set `exit_signal` on the
state; publish the state; if the command is `Kill`, break. -/
def Driver.runLoop : Driver → List IterInput → List State
  | _, [] => []
  | d, inp :: rest =>
    let d1 := d.process inp
    let d2 :=
      if d1.control.command = .Kill then
        { d1 with state := { d1.state with exit_signal := true } }
      else d1
    if d2.control.command = .Kill then [d2.state]
    else d2.state :: d2.runLoop rest

/-- The `u16::to_le_bytes` byte pair of a 16-bit value. -/
def toLeBytes16 (i : Nat) : List Nat :=
  [i % 256, i / 256 % 256]

/-- `Driver::send_sdo_download` from `driver.rs` lines 234–264, embedded as
the frame encoder: returns `some packet` when a frame is built and handed to
`co.tx.send`, and `none` when the request is rejected (`data.len() > 4`:
segmented transfer unsupported — the transmit operation is never invoked).
The payload: command byte `0x20 ||| (n <<< 2) ||| 0x03` with
`n = 4 - data.length`, little-endian index, subindex, data, zero-padded to
8 bytes by the source's `while sdo_data.len() < 8 { push(0) }` loop. -/
def send_sdo_download (node_id : Nat) (index : Nat) (subindex : Nat)
    (data : List Nat) : Option TxPacket :=
  let sdo_tx_cob_id := 0x600 + node_id
  if data.length ≤ 4 then
    let n := 4 - data.length
    let ccs := 0x20 ||| (n <<< 2) ||| 0x03
    let sdo_data := ccs :: (toLeBytes16 index ++ (subindex :: data))
    let sdo_data := sdo_data ++ List.replicate (8 - sdo_data.length) 0
    some { cob_id := sdo_tx_cob_id, data := sdo_data }
  else
    none

/-- The `SendRaw` arm of `Driver::handle_write_command` (`driver.rs` lines
164–172): masks the 32-bit COB-ID with `0x7FF`, builds the packet and always
hands it to `co.tx.send` (a failed send is only logged). -/
def handle_send_raw (cob_id : Nat) (data : List Nat) : TxPacket :=
  { cob_id := cob_id &&& 0x7FF, data := data }

/-- The `SendPdo` arm of `Driver::handle_write_command` (`driver.rs` lines
173–181): identical to the `SendRaw` arm at the wire level. -/
def handle_send_pdo (cob_id : Nat) (data : List Nat) : TxPacket :=
  { cob_id := cob_id &&& 0x7FF, data := data }

/-! ## Statistics engine (`bus_stats.rs`)

`tokio::time::Instant` is modelled as a rational number of seconds;
`a.duration_since(b)` saturates at zero.  `f64` is modelled as `ℚ`
(exact arithmetic; every literal appearing in the source and the claims is a
dyadic rational). -/

/-- `Instant::duration_since` in seconds: saturates at zero. -/
def durationSince (a b : ℚ) : ℚ := max (a - b) 0

/-- `BusStats` from `bus_stats.rs` lines 5–37.  The two `HashMap`s are
modelled as total functions (`count` defaults to 0, `last_seen` / `rates` to
`none`), which is faithful to `entry().or_insert(0)` / `get` semantics. -/
structure BusStats where
  total_messages : Nat := 0
  messages_history : List (ℚ × Nat) := []
  current_load : ℚ := 0
  peak_load : ℚ := 0
  avg_load : ℚ := 0
  load_samples : List ℚ := []
  last_message_time : Option ℚ := none
  min_gap : Option ℚ := none
  max_gap : Option ℚ := none
  gap_sum : ℚ := 0
  gap_count : Nat := 0
  gap_history : List ℚ := []
  cob_id_counts : Nat → Nat := fun _ => 0
  cob_id_last_seen : Nat → Option ℚ := fun _ => none
  cob_id_rates : Nat → Option ℚ := fun _ => none
  current_msg_rate : ℚ := 0
  peak_msg_rate : ℚ := 0
  avg_msg_rate : ℚ := 0
  start_time : ℚ := 0

/-- `BusStats::new` (`bus_stats.rs` lines 46–68); `Instant::now()` is passed
in as `now`. -/
def BusStats.new (now : ℚ) : BusStats := { start_time := now }

/-- The rate-window pruning loop of `BusStats::on_message` (`bus_stats.rs`
lines 100–106): pop the front entry while it is older than 5 seconds
relative to `timestamp`, stopping at the first young-enough entry. -/
def pruneHistory (timestamp : ℚ) : List (ℚ × Nat) → List (ℚ × Nat)
  | [] => []
  | (old_time, c) :: rest =>
    if durationSince timestamp old_time > 5 then pruneHistory timestamp rest
    else (old_time, c) :: rest

/-- `BusStats::on_message` from `bus_stats.rs` lines 71–107: bump the total
and the per-identifier count, update gap statistics when a previous message
exists (bounded gap window of 1000, drop-oldest — a single `if`, not a
loop), record the last-seen time, append `(timestamp, total)` to the rate
window and prune entries older than 5 seconds. -/
def BusStats.on_message (s : BusStats) (cob_id : Nat) (timestamp : ℚ) : BusStats :=
  let total := s.total_messages + 1
  let counts := fun id => if id = cob_id then s.cob_id_counts id + 1 else s.cob_id_counts id
  let s1 :=
    match s.last_message_time with
    | some last_time =>
      let gap_ms := durationSince timestamp last_time * 1000
      let gh := s.gap_history ++ [gap_ms]
      let gh := if gh.length > 1000 then gh.tail else gh
      { s with
        total_messages := total
        cob_id_counts := counts
        min_gap := some (match s.min_gap with | some m => min m gap_ms | none => gap_ms)
        max_gap := some (match s.max_gap with | some m => max m gap_ms | none => gap_ms)
        gap_sum := s.gap_sum + gap_ms
        gap_count := s.gap_count + 1
        gap_history := gh }
    | none => { s with total_messages := total, cob_id_counts := counts }
  { s1 with
    last_message_time := some timestamp
    cob_id_last_seen := fun id =>
      if id = cob_id then some timestamp else s1.cob_id_last_seen id
    messages_history := pruneHistory timestamp (s1.messages_history ++ [(timestamp, total)]) }

/-- `BusStats::calculate_msg_rate` from `bus_stats.rs` lines 125–146.
`Instant::now()` (used for the average rate) is passed in as `now`.  With
fewer than 2 window entries the current rate is set to 0; otherwise, when
the endpoint timestamps span a positive duration, the current rate becomes
`(last_count − first_count) / duration`, the peak is raised accordingly and
the average rate is recomputed; when the duration is not positive nothing is
changed.  (`u64` subtraction of the counts is modelled by truncated `Nat`
subtraction; window counts are nondecreasing in every state reachable
through `on_message`.) -/
def BusStats.calculate_msg_rate (s : BusStats) (now : ℚ) : BusStats :=
  if s.messages_history.length < 2 then
    { s with current_msg_rate := 0 }
  else
    match s.messages_history.head?, s.messages_history.getLast? with
    | some (first_time, first_count), some (last_time, last_count) =>
      let duration := durationSince last_time first_time
      if duration > 0 then
        let msg_diff := last_count - first_count
        let rate := (msg_diff : ℚ) / duration
        let total_duration := durationSince now s.start_time
        { s with
          current_msg_rate := rate
          peak_msg_rate := max s.peak_msg_rate rate
          avg_msg_rate :=
            if total_duration > 0 then (s.total_messages : ℚ) / total_duration
            else s.avg_msg_rate }
      else s
    | _, _ => s

/-- `BusStats::jitter` from `bus_stats.rs` lines 185–194: `none` with fewer
than 2 gap samples, otherwise the square root of the mean squared deviation
from the window average (population standard deviation).  The square root is
taken in `ℝ`. -/
noncomputable def BusStats.jitter (s : BusStats) : Option ℝ :=
  if s.gap_history.length < 2 then none
  else
    let avg : ℚ := s.gap_history.sum / (s.gap_history.length : ℚ)
    let variance : ℚ :=
      (s.gap_history.map (fun gap => (gap - avg) ^ 2)).sum / (s.gap_history.length : ℚ)
    some (Real.sqrt (variance : ℝ))

/-- The population variance of a list of rationals, written from the
standard mathematical definition (mean of squared deviations from the
mean); used to state what `jitter` returns. -/
def popVariance (l : List ℚ) : ℚ :=
  (l.map (fun x => (x - l.sum / (l.length : ℚ)) ^ 2)).sum / (l.length : ℚ)

/-! ## Theorems -/

/-- Masking with `0x7FF` is reduction modulo `2^11`. -/
theorem and_0x7FF_eq_mod (n : Nat) : n &&& 0x7FF = n % 2048 := by
  have h := Nat.and_pow_two_sub_one_eq_mod n 11
  norm_num at h
  exact h

/-- C3: for every node id, index, subindex and data of length 1–4, the SDO
expedited download encoder produces the frame with identifier
`0x600 + node_id` and the exactly-8-byte payload
`[0x20 ||| ((4 − len) <<< 2) ||| 0x03, low index byte, high index byte,
subindex] ++ data ++ zero padding`. -/
theorem send_sdo_download_encodes (node_id index subindex : Nat) (data : List Nat)
    (h1 : 1 ≤ data.length) (h2 : data.length ≤ 4) (hidx : index < 65536) :
    send_sdo_download node_id index subindex data =
      some { cob_id := 0x600 + node_id,
             data := (0x20 ||| ((4 - data.length) <<< 2) ||| 0x03) ::
               (index % 256) :: (index / 256) :: subindex ::
               (data ++ List.replicate (4 - data.length) 0) } ∧
    ((0x20 ||| ((4 - data.length) <<< 2) ||| 0x03) ::
        (index % 256) :: (index / 256) :: subindex ::
        (data ++ List.replicate (4 - data.length) 0)).length = 8 := by
  have hdiv : index / 256 < 256 := by omega
  constructor
  · simp only [send_sdo_download, toLeBytes16, if_pos h2]
    have hmod : index / 256 % 256 = index / 256 := Nat.mod_eq_of_lt hdiv
    have hlen : 8 - ((0x20 ||| ((4 - data.length) <<< 2) ||| 0x03) ::
        ([index % 256, index / 256 % 256] ++ subindex :: data)).length
        = 4 - data.length := by
      simp
    rw [hlen, hmod]
    simp
  · simp
    omega

/-- C3 witness: node 1, index `0x6040`, subindex 0, data `[0x06, 0x00]`
yields identifier `0x601` and payload
`[0x2B, 0x40, 0x60, 0x00, 0x06, 0x00, 0x00, 0x00]`. -/
theorem send_sdo_download_encodes_witness :
    send_sdo_download 1 0x6040 0x00 [0x06, 0x00] =
      some { cob_id := 0x601, data := [0x2B, 0x40, 0x60, 0x00, 0x06, 0x00, 0x00, 0x00] } := by
  have h := send_sdo_download_encodes 1 0x6040 0x00 [0x06, 0x00]
    (by decide) (by decide) (by decide)
  rw [h.1]
  decide

/-- C4: for every data input longer than 4 bytes, the SDO expedited download
encoder rejects the request: no frame is produced (and hence the transmit
operation, which is only reached with a built frame, is never invoked). -/
theorem send_sdo_download_rejects_long (node_id index subindex : Nat)
    (data : List Nat) (h : 4 < data.length) :
    send_sdo_download node_id index subindex data = none := by
  simp only [send_sdo_download]
  rw [if_neg (by omega)]

/-- C4 witness: a 5-byte payload is rejected. -/
theorem send_sdo_download_rejects_long_witness :
    send_sdo_download 2 0x1234 0x01 [1, 2, 3, 4, 5] = none :=
  send_sdo_download_rejects_long 2 0x1234 0x01 [1, 2, 3, 4, 5] (by decide)

/-- C10: the `SendRaw` and `SendPdo` handlers mask the supplied 32-bit
identifier with `0x7FF` (reduction to the low 11 bits, i.e. modulo 2048) and
always produce the frame — the handlers are total, so an out-of-range
identifier is truncated, never rejected. -/
theorem handle_raw_pdo_mask (cob_id : Nat) (data : List Nat)
    (h32 : cob_id < 2 ^ 32) :
    handle_send_raw cob_id data = { cob_id := cob_id % 2048, data := data } ∧
    handle_send_pdo cob_id data = { cob_id := cob_id % 2048, data := data } ∧
    (0x7FF < cob_id → cob_id % 2048 < cob_id) := by
  refine ⟨?_, ?_, ?_⟩
  · simp [handle_send_raw, and_0x7FF_eq_mod]
  · simp [handle_send_pdo, and_0x7FF_eq_mod]
  · intro h
    have := Nat.mod_lt cob_id (show 0 < 2048 by norm_num)
    omega

/-- C10 witness: identifier `0x1234` (above `0x7FF`) is truncated to
`0x234` and the frame is still produced, for both handlers. -/
theorem handle_raw_pdo_mask_witness :
    handle_send_raw 0x1234 [1] = { cob_id := 0x234, data := [1] } ∧
    handle_send_pdo 0x1234 [1] = { cob_id := 0x234, data := [1] } := by
  have h := handle_raw_pdo_mask 0x1234 [1] (by norm_num)
  exact ⟨h.1.trans (by decide), h.2.1.trans (by decide)⟩

/-- C2: the `WriteCommand` enum embedded from `driver.rs` consists of
exactly the six variants `SendSync`, `SendNmt`, `SendRaw`, `SendPdo`,
`SendSdoDownload` and `ConfigureTpdo1Statusword` — in particular it has no
`SendEmcy` variant, although `message_sender.rs` constructs
`WriteCommand::SendEmcy` (the provided sources are mutually inconsistent). -/
theorem writeCommand_has_no_emcy_variant (c : WriteCommand) :
    c = .SendSync ∨ (∃ n k, c = .SendNmt n k) ∨ (∃ i d, c = .SendRaw i d) ∨
    (∃ i d, c = .SendPdo i d) ∨ (∃ n i s d, c = .SendSdoDownload n i s d) ∨
    (∃ n, c = .ConfigureTpdo1Statusword n) := by
  cases c <;> simp

/-! ## Bounded message log -/

/-- An iteration input in which the select race is won by a received frame,
the control channel reports no change and the info snapshot is the default. -/
def frameInput (f : RawFrame) : IterInput := { event := .frame f }

/-- Run `Driver::process` once per frame of the given list, each frame
winning the select race. -/
def feedFrames (d : Driver) : List RawFrame → Driver
  | [] => d
  | f :: fs => feedFrames (d.process (frameInput f)) fs

/-- A freshly constructed driver in the `Process` state with an empty log,
as produced by `Driver::new` with an initial `Process` control value. -/
def initialDriver : Driver := { control := { command := .Process } }

/-- The eviction loop leaves `min length 512` entries. -/
theorem evictExcess_length (l : List MessageCached) :
    (evictExcess l).length = min l.length MAX_MESSAGES_IN_STATE := by
  induction l with
  | nil => simp [evictExcess]
  | cons x xs ih =>
    simp only [evictExcess]
    split
    · rename_i h
      rw [ih]
      simp only [MAX_MESSAGES_IN_STATE] at *
      simp only [List.length_cons]
      omega
    · rename_i h
      simp only [MAX_MESSAGES_IN_STATE] at *
      simp only [List.length_cons]
      omega

/-- A bounded push yields `min length 512 + 1` entries: the log can reach
513 entries, one more than `MAX_MESSAGES_IN_STATE`. -/
theorem pushBounded_length (l : List MessageCached) (m : MessageCached) :
    (pushBounded l m).length = min l.length MAX_MESSAGES_IN_STATE + 1 := by
  simp [pushBounded, evictExcess_length]

/-- Processing a frame-arrival iteration in the `Process` state ingests the
frame: the eviction loop runs, the wrapped message is appended and the
sequence index advances. -/
theorem process_frame_eq (d : Driver) (f : RawFrame)
    (h : d.control.command = .Process) :
    d.process (frameInput f) =
      { d with
        state := { d.state with
                   info := {},
                   data := pushBounded d.state.data (MessageCached.new d.index f) },
        index := d.index + 1 } := by
  simp only [Driver.process, frameInput]
  rw [h]

/-- Feeding frames to a driver in the `Process` state grows the log to
`min (initial + fed) 513`. -/
theorem feedFrames_length (fs : List RawFrame) (d : Driver)
    (hc : d.control.command = .Process)
    (hlen : d.state.data.length ≤ MAX_MESSAGES_IN_STATE + 1) :
    (feedFrames d fs).state.data.length =
      min (d.state.data.length + fs.length) (MAX_MESSAGES_IN_STATE + 1) := by
  induction fs generalizing d with
  | nil =>
    simp only [feedFrames, List.length_nil, Nat.add_zero]
    omega
  | cons f fs ih =>
    rw [feedFrames, process_frame_eq d f hc]
    have hb : ({ d with
        state := { d.state with
                   info := {},
                   data := pushBounded d.state.data (MessageCached.new d.index f) },
        index := d.index + 1 } : Driver).state.data.length ≤
        MAX_MESSAGES_IN_STATE + 1 := by
      show (pushBounded d.state.data (MessageCached.new d.index f)).length ≤ _
      rw [pushBounded_length]
      omega
    rw [ih { d with
        state := { d.state with
                   info := {},
                   data := pushBounded d.state.data (MessageCached.new d.index f) },
        index := d.index + 1 } hc hb]
    show min ((pushBounded d.state.data (MessageCached.new d.index f)).length
        + fs.length) (MAX_MESSAGES_IN_STATE + 1) = _
    rw [pushBounded_length]
    simp only [List.length_cons]
    omega

/-- C1 (falsified by evaluation): starting from an empty log, ingesting 513
frames leaves 513 entries in `State.data` — one more than
`MAX_MESSAGES_IN_STATE = 512` — because the eviction loop of
`Driver::process` only pops while the length already exceeds 512 and runs
before the push.  This contradicts the claimed bound of 512 (and the
source's own comment that the push keeps the state within the max size). -/
theorem message_log_reaches_513 :
    (feedFrames initialDriver
        (List.replicate 513 { cob_id := 0, data := [] })).state.data.length =
      MAX_MESSAGES_IN_STATE + 1 ∧
    MAX_MESSAGES_IN_STATE = 512 := by
  constructor
  · rw [feedFrames_length (List.replicate 513 { cob_id := 0, data := [] })
      initialDriver rfl (by simp [initialDriver])]
    rw [List.length_replicate]
    show min (([] : List MessageCached).length + 513) (MAX_MESSAGES_IN_STATE + 1)
      = MAX_MESSAGES_IN_STATE + 1
    norm_num [MAX_MESSAGES_IN_STATE]
  · rfl

/-! ## Driver loop: control commands -/

/-- The control value in force after the edge-triggered update of an
iteration: the freshly observed value when the watch channel reported a
change, the previously held value otherwise. -/
def updatedControl (d : Driver) (inp : IterInput) : Control :=
  match inp.ctrl with
  | some c => c
  | none => d.control

/-- When the active command after the control update is `Stop` or `Kill`,
the iteration ingests nothing: the log and the sequence index are
untouched (this also holds on the ctrl-c branch, which skips the update and
ends the iteration at once). -/
theorem process_no_ingest (d : Driver) (inp : IterInput)
    (h : (updatedControl d inp).command = .Stop ∨
         (updatedControl d inp).command = .Kill) :
    (d.process inp).state.data = d.state.data ∧ (d.process inp).index = d.index := by
  obtain ⟨ev, ctrl, info⟩ := inp
  cases ev <;>
    [skip; skip; skip; exact ⟨rfl, rfl⟩; skip] <;>
    cases ctrl <;>
    simp only [updatedControl] at h <;>
    rcases h with h | h <;>
    simp [Driver.process, h]

/-- C8: in every iteration whose active control command after the
edge-triggered control update is `Stop` or `Kill`, no frame is appended to
the message log and the sequence index is not advanced — even when a frame
arrived from the bus port during that iteration (the quantification over
`inp` includes every `SelectEvent.frame` input). -/
theorem stop_kill_iteration_ingests_nothing (d : Driver) (inp : IterInput)
    (h : (updatedControl d inp).command = .Stop ∨
         (updatedControl d inp).command = .Kill) :
    (d.process inp).state.data = d.state.data ∧ (d.process inp).index = d.index :=
  process_no_ingest d inp h

/-- C8 witness: a frame arrives in the very iteration in which the control
update switches the command to `Stop`; the log stays empty and the index
stays 0. -/
theorem stop_kill_iteration_ingests_nothing_witness :
    (initialDriver.process
        { event := .frame { cob_id := 0x181, data := [1, 2] },
          ctrl := some { command := .Stop } }).state.data = initialDriver.state.data ∧
    (initialDriver.process
        { event := .frame { cob_id := 0x181, data := [1, 2] },
          ctrl := some { command := .Stop } }).index = initialDriver.index :=
  stop_kill_iteration_ingests_nothing initialDriver
    { event := .frame { cob_id := 0x181, data := [1, 2] },
      ctrl := some { command := .Stop } }
    (Or.inl rfl)

/-- Except on the ctrl-c branch, `Driver::process` leaves the control at
the value in force after the edge-triggered update. -/
theorem process_control_eq (d : Driver) (inp : IterInput)
    (h : inp.event ≠ .ctrlC) :
    (d.process inp).control = updatedControl d inp := by
  obtain ⟨ev, ctrl, info⟩ := inp
  cases ev
  case ctrlC => exact absurd rfl h
  all_goals
    cases ctrl with
    | none =>
      simp only [Driver.process, updatedControl]
      split <;> rfl
    | some c =>
      simp only [Driver.process, updatedControl]
      split <;> rfl

/-- An iteration after which the active command is `Kill` ingested no
frame: the log is unchanged. -/
theorem process_data_of_kill (d : Driver) (inp : IterInput)
    (h : (d.process inp).control.command = .Kill) :
    (d.process inp).state.data = d.state.data := by
  by_cases hev : inp.event = SelectEvent.ctrlC
  · obtain ⟨ev, ctrl, info⟩ := inp
    change ev = SelectEvent.ctrlC at hev
    subst hev
    simp [Driver.process]
  · have hc := process_control_eq d inp hev
    rw [hc] at h
    exact (process_no_ingest d inp (Or.inr h)).1

/-- C5: once the active control command becomes `Kill` (whether adopted
from the control channel or forced by the shutdown signal), the very next
published state carries `exit_signal = true`, the loop publishes it and
exits immediately (every remaining input is discarded), and the message log
was not extended in that final iteration — nor afterwards, since nothing
runs afterwards. -/
theorem kill_terminates_loop (d : Driver) (inp : IterInput) (rest : List IterInput)
    (h : (d.process inp).control.command = .Kill) :
    d.runLoop (inp :: rest) =
      [{ (d.process inp).state with exit_signal := true }] ∧
    (∀ s ∈ d.runLoop (inp :: rest), s.exit_signal = true) ∧
    (d.process inp).state.data = d.state.data := by
  have hrun : d.runLoop (inp :: rest) =
      [{ (d.process inp).state with exit_signal := true }] := by
    simp [Driver.runLoop, h]
  refine ⟨hrun, ?_, process_data_of_kill d inp h⟩
  rw [hrun]
  simp

/-- C5 witness: a `Kill` control update arrives together with a frame; the
loop publishes exactly one final state with the exit flag set and an
unchanged (empty) log, ignoring the remaining queued input. -/
theorem kill_terminates_loop_witness :
    Driver.runLoop initialDriver
        [{ event := .frame { cob_id := 0x201, data := [] },
           ctrl := some { command := .Kill } },
         { event := .frame { cob_id := 0x201, data := [] } }] =
      [{ can_name := "", bitrate := none, data := [], info := {},
         exit_signal := true }] ∧
    (initialDriver.process
        { event := .frame { cob_id := 0x201, data := [] },
          ctrl := some { command := .Kill } }).state.data =
      initialDriver.state.data := by
  have h := kill_terminates_loop initialDriver
      { event := .frame { cob_id := 0x201, data := [] },
        ctrl := some { command := .Kill } }
      [{ event := .frame { cob_id := 0x201, data := [] } }] rfl
  refine ⟨h.1.trans ?_, h.2.2⟩
  decide

/-! ## Statistics engine theorems -/

/-- C6: `calculate_msg_rate` sets the current rate to 0 when the rate
window has fewer than 2 entries, and otherwise — over endpoints with a
positive timestamp span and nondecreasing counts — to
`(last_count − first_count) / (last_timestamp − first_timestamp)` in
messages per second. -/
theorem calculate_msg_rate_endpoints (s : BusStats) (now : ℚ) :
    (s.messages_history.length < 2 →
      (s.calculate_msg_rate now).current_msg_rate = 0) ∧
    (∀ ft fc lt lc, 2 ≤ s.messages_history.length →
      s.messages_history.head? = some (ft, fc) →
      s.messages_history.getLast? = some (lt, lc) →
      ft < lt → fc ≤ lc →
      (s.calculate_msg_rate now).current_msg_rate =
        ((lc : ℚ) - (fc : ℚ)) / (lt - ft)) := by
  constructor
  · intro h
    simp [BusStats.calculate_msg_rate, if_pos h]
  · intro ft fc lt lc hlen hhead hlast hlt hle
    have hnot : ¬ s.messages_history.length < 2 := by omega
    simp only [BusStats.calculate_msg_rate, if_neg hnot, hhead, hlast]
    have hdur : durationSince lt ft = lt - ft := by
      simp only [durationSince]
      rw [max_eq_left (by linarith)]
    rw [hdur, if_pos (by linarith)]
    have hcast : ((lc - fc : Nat) : ℚ) = (lc : ℚ) - (fc : ℚ) := by
      push_cast [hle]
      ring
    simp [hcast]

/-- C6 witness state: six messages one second apart, built through
`on_message` (which also performs the 5-second pruning). -/
def rateWindowExample : BusStats :=
  [(0 : ℚ), 1, 2, 3, 4, 5].foldl (fun s t => s.on_message 0x181 t) (BusStats.new 0)

/-- `on_message` appends `(timestamp, new_total)` to the rate window and
prunes entries older than 5 seconds relative to the new timestamp. -/
theorem on_message_history (s : BusStats) (id : Nat) (t : ℚ) :
    (s.on_message id t).messages_history =
      pruneHistory t (s.messages_history ++ [(t, s.total_messages + 1)]) ∧
    (s.on_message id t).total_messages = s.total_messages + 1 := by
  unfold BusStats.on_message
  cases s.last_message_time <;> simp

/-- The example window after the six `on_message` calls: nothing is older
than 5 seconds relative to the latest timestamp, so nothing is pruned. -/
theorem rateWindowExample_history :
    rateWindowExample.messages_history =
      [((0 : ℚ), 1), (1, 2), (2, 3), (3, 4), (4, 5), (5, 6)] := by
  unfold rateWindowExample
  simp only [List.foldl_cons, List.foldl_nil]
  simp only [on_message_history, BusStats.new]
  norm_num [pruneHistory, durationSince, max_def]

/-- C6 witness: entries one second apart with counts 1..6 over a 5-second
span yield rate `(6 − 1) / (5 − 0) = 1` message per second. -/
theorem calculate_msg_rate_endpoints_witness :
    rateWindowExample.messages_history =
      [((0 : ℚ), 1), (1, 2), (2, 3), (3, 4), (4, 5), (5, 6)] ∧
    (rateWindowExample.calculate_msg_rate 5).current_msg_rate = 1 := by
  have hh := rateWindowExample_history
  refine ⟨hh, ?_⟩
  have h := (calculate_msg_rate_endpoints rateWindowExample 5).2 0 1 5 6
    (by rw [hh]; norm_num)
    (by rw [hh]; rfl)
    (by rw [hh]; rfl)
    (by norm_num) (by norm_num)
  rw [h]
  norm_num

/-- C9: with at least 2 rate-window entries whose first and last timestamps
are equal, `calculate_msg_rate` takes the non-positive-duration branch (no
division is reached) and leaves the current, peak and average rates at
their previous values. -/
theorem calculate_msg_rate_same_timestamp (s : BusStats) (now t : ℚ) (fc lc : Nat)
    (hlen : 2 ≤ s.messages_history.length)
    (hhead : s.messages_history.head? = some (t, fc))
    (hlast : s.messages_history.getLast? = some (t, lc)) :
    (s.calculate_msg_rate now).current_msg_rate = s.current_msg_rate ∧
    (s.calculate_msg_rate now).peak_msg_rate = s.peak_msg_rate ∧
    (s.calculate_msg_rate now).avg_msg_rate = s.avg_msg_rate := by
  have hs : s.calculate_msg_rate now = s := by
    have hnot : ¬ s.messages_history.length < 2 := by omega
    simp only [BusStats.calculate_msg_rate, if_neg hnot, hhead, hlast]
    have hz : durationSince t t = 0 := by simp [durationSince]
    rw [hz]
    norm_num
  rw [hs]
  exact ⟨rfl, rfl, rfl⟩

/-- C9 witness: two entries with the same timestamp; the previously stored
rates 3, 7 and 2 are untouched. -/
def sameTimestampExample : BusStats :=
  { messages_history := [(1, 1), (1, 4)], current_msg_rate := 3,
    peak_msg_rate := 7, avg_msg_rate := 2 }

theorem calculate_msg_rate_same_timestamp_witness :
    (sameTimestampExample.calculate_msg_rate 10).current_msg_rate = 3 ∧
    (sameTimestampExample.calculate_msg_rate 10).peak_msg_rate = 7 ∧
    (sameTimestampExample.calculate_msg_rate 10).avg_msg_rate = 2 :=
  calculate_msg_rate_same_timestamp sameTimestampExample 10 1 1 4
    (by decide) rfl rfl

/-- The population variance is nonnegative. -/
theorem popVariance_nonneg (l : List ℚ) : 0 ≤ popVariance l := by
  unfold popVariance
  apply div_nonneg
  · apply List.sum_nonneg
    intro x hx
    obtain ⟨y, hy, rfl⟩ := List.mem_map.1 hx
    positivity
  · positivity

/-- C7: `jitter` returns no value when the gap window holds fewer than 2
samples; otherwise it returns the population standard deviation of the
window — the nonnegative real whose square is the population variance.  For
the samples `[10, 20, 30]` (milliseconds) its square is `200/3` and it lies
within `0.001` of `8.165`. -/
theorem jitter_popStdDev (s : BusStats) :
    (s.gap_history.length < 2 → s.jitter = none) ∧
    (2 ≤ s.gap_history.length →
      ∃ r : ℝ, s.jitter = some r ∧ 0 ≤ r ∧
        r ^ 2 = ((popVariance s.gap_history : ℚ) : ℝ)) ∧
    (s.gap_history = [10, 20, 30] →
      ∃ r : ℝ, s.jitter = some r ∧ r ^ 2 = 200 / 3 ∧
        |r - 8165 / 1000| < 1 / 1000) := by
  have key : 2 ≤ s.gap_history.length →
      s.jitter = some (Real.sqrt ((popVariance s.gap_history : ℚ) : ℝ)) ∧
      Real.sqrt ((popVariance s.gap_history : ℚ) : ℝ) ^ 2 =
        ((popVariance s.gap_history : ℚ) : ℝ) := by
    intro h
    have hnot : ¬ s.gap_history.length < 2 := by omega
    constructor
    · simp only [BusStats.jitter, if_neg hnot, popVariance]
    · rw [Real.sq_sqrt]
      exact_mod_cast popVariance_nonneg s.gap_history
  refine ⟨?_, ?_, ?_⟩
  · intro h
    simp [BusStats.jitter, if_pos h]
  · intro h
    exact ⟨_, (key h).1, Real.sqrt_nonneg _, (key h).2⟩
  · intro h
    have hlen : 2 ≤ s.gap_history.length := by rw [h]; norm_num
    have hv : popVariance s.gap_history = 200 / 3 := by
      rw [h]; norm_num [popVariance]
    refine ⟨Real.sqrt ((popVariance s.gap_history : ℚ) : ℝ), (key hlen).1, ?_, ?_⟩
    · rw [(key hlen).2, hv]
      norm_num
    · have h2 := (key hlen).2
      rw [hv] at h2
      have h2R : Real.sqrt (((200 / 3 : ℚ) : ℝ)) ^ 2 = (200 / 3 : ℝ) := by
        rw [(by push_cast; ring : ((200 / 3 : ℚ) : ℝ) = (200 / 3 : ℝ))] at h2 ⊢
        exact h2
      have h0 : (0 : ℝ) ≤ Real.sqrt ((popVariance s.gap_history : ℚ) : ℝ) :=
        Real.sqrt_nonneg _
      rw [hv] at h0 ⊢
      rw [abs_lt]
      constructor <;> nlinarith [h2R, h0]

/-- C7 witness: a gap window `[10, 20, 30]`. -/
def jitterExample : BusStats := { gap_history := [10, 20, 30] }

theorem jitter_popStdDev_witness :
    ∃ r : ℝ, jitterExample.jitter = some r ∧ r ^ 2 = 200 / 3 ∧
      |r - 8165 / 1000| < 1 / 1000 :=
  (jitter_popStdDev jitterExample).2.2 rfl

end OzeCanopen

